import Mathlib

/-!
Verification of the SSE streaming conformance engine of the `conformance`
repository. The definitions below are a shallow embedding of the TypeScript
sources: `SSERetryScenario` (the server-role harness probing a client under
test), `ServerSSEMultipleStreamsScenario` and `ServerSSEPollingScenario`
(client-role probers). JavaScript numbers that hold wall-clock instants and
millisecond delays are modelled as `Rat`; JSON-RPC `id` values, which in the
source can be a number, a string, `null`, or the absent value `undefined`,
are modelled by the `JVal` type. Diagnostic free text that interpolates
measured floating-point times (via `toFixed`) is not reproduced verbatim;
check `id`/`name`/`status` fields, which the theorems are about, are exact.
-/

/-- `CheckStatus` from `src/types.ts`. -/
inductive CheckStatus
  | SUCCESS
  | FAILURE
  | WARNING
  | SKIPPED
  | INFO
deriving DecidableEq, Repr

/-- A JavaScript value as it appears in JSON-RPC `id` positions: `null`,
`undefined` (the field is absent), a number, or a string. -/
inductive JVal
  | null
  | undef
  | num (n : Int)
  | str (s : String)
deriving DecidableEq, Repr

/-- `ConformanceCheck` from `src/types.ts`, restricted to the fields the
claims are about.  `timestamp`, `specReferences`, `details`, `metadata` and
`logs` are diagnostic payload that no claim inspects and are not modelled. -/
structure ConformanceCheck where
  id : String
  name : String
  description : String
  status : CheckStatus
  errorMessage : Option String := none
deriving DecidableEq, Repr

/-- Payload of an emitted SSE event: an empty-data priming event, or a
JSON-RPC result envelope correlated to a request id. -/
inductive SsePayload
  | priming
  | toolResult (jsonrpcId : JVal)
deriving DecidableEq, Repr

/-- One SSE event written to a response stream by the server-role harness.
On the wire the event id is the string `event-<idNum>`; `retry` is the
`retry:` field when present; `payload` distinguishes the empty-data priming
event from a JSON-RPC tool-result event (`event: message`) correlated to the
given JSON-RPC id. -/
structure SseOut where
  idNum : Nat
  retry : Option Rat := none
  payload : SsePayload
deriving DecidableEq, Repr

/-- The body the harness ends an HTTP response with. -/
inductive RespBody
  | empty
  | text (s : String)
  | jsonResult (jsonrpcId : JVal)
  | jsonError (code : Int)
deriving DecidableEq, Repr

/-- An HTTP response produced by the server-role harness: status code,
`Content-Type` header, echoed `mcp-session-id` header, the SSE events
written before the stream is (eventually) ended, the non-stream body, and
the delay of a scheduled `res.end()` when the handler arms one. -/
structure HttpResponse where
  status : Nat
  contentType : Option String := none
  sessionHeader : Option String := none
  events : List SseOut := []
  body : RespBody := .empty
  closeDelayMs : Option Nat := none
deriving DecidableEq, Repr

/-- A parsed JSON-RPC request body: `method` and the `id` field
(`JVal.undef` when the body has no `id`). -/
structure JsonRpcReq where
  method : String
  id : JVal := .undef
deriving DecidableEq, Repr

/-- An incoming HTTP request as seen by `SSERetryScenario.handleRequest`:
method, URL, the `mcp-session-id` and `last-event-id` headers, and for POST
the parsed JSON body (`none` models a body `JSON.parse` rejects). -/
structure HttpRequest where
  method : String
  url : String := "/"
  sessionId : Option String := none
  lastEventId : Option String := none
  body : Option JsonRpcReq := none
deriving DecidableEq, Repr

namespace SSERetryScenario

/-- `EARLY_TOLERANCE` constant of `SSERetryScenario` (ms). -/
def EARLY_TOLERANCE : Rat := 50

/-- `LATE_TOLERANCE` constant of `SSERetryScenario` (ms). -/
def LATE_TOLERANCE : Rat := 200

/-- `VERY_LATE_MULTIPLIER` constant of `SSERetryScenario`. -/
def VERY_LATE_MULTIPLIER : Rat := 2

/-- The reconnection-timing decision inlined in
`SSERetryScenario.generateChecks` (the status assignment over `tooEarly`,
`veryLate`, `slightlyLate`), as the pure function of the observed delay and
the tolerance parameters. -/
def retryTimingDecision (actualDelay expectedRetry earlyTol lateTol
    veryLateMult : Rat) : CheckStatus :=
  let minExpected := expectedRetry - earlyTol
  let maxExpected := expectedRetry + lateTol
  let tooEarly := actualDelay < minExpected
  let slightlyLate := actualDelay > maxExpected
  let veryLate := actualDelay > expectedRetry * veryLateMult
  if tooEarly then .FAILURE
  else if veryLate then .FAILURE
  else if slightlyLate then .WARNING
  else .SUCCESS

/-- The mutable instance state of one `SSERetryScenario`, with the field
initializers of the class.  The session id suffix (`Date.now()`) is a
parameter of `initState`. -/
structure RetryState where
  toolStreamCloseTime : Option Rat := none
  getReconnectionTime : Option Rat := none
  getConnectionCount : Nat := 0
  lastEventIds : List String := []
  retryValue : Rat := 500
  eventIdCounter : Nat := 0
  sessionId : String := "session-0"
  pendingToolCallId : JVal := .null
  checks : List ConformanceCheck := []
deriving DecidableEq, Repr

/-- A freshly constructed `SSERetryScenario` instance. -/
def initState (sessionId : String) : RetryState :=
  { sessionId := sessionId }

/-- Append one check to the instance check ledger (`this.checks.push`). -/
def logCheck (s : RetryState) (c : ConformanceCheck) : RetryState :=
  { s with checks := s.checks ++ [c] }

/-- `SSERetryScenario.handleGetSSEStream`: write the SSE head (200,
`text/event-stream`, echoed session id), mint a new event id and write the
priming event carrying it and the retry hint, log an `OutgoingSseEvent`
check, and, when `pendingToolCallId` is not `null`, write the deferred
JSON-RPC result event under a second freshly minted event id, log it, and
clear `pendingToolCallId` to `null`. -/
def handleGetSSEStream (s : RetryState) : RetryState × HttpResponse :=
  let c1 := s.eventIdCounter + 1
  let priming : SseOut := { idNum := c1, retry := some s.retryValue, payload := .priming }
  let primingCheck : ConformanceCheck :=
    { id := "outgoing-sse-event", name := "OutgoingSseEvent",
      description := "Sent SSE priming event on GET stream", status := .INFO }
  let s1 : RetryState := logCheck { s with eventIdCounter := c1 } primingCheck
  if s1.pendingToolCallId ≠ JVal.null then
    let c2 := s1.eventIdCounter + 1
    let respEvent : SseOut := { idNum := c2, payload := .toolResult s1.pendingToolCallId }
    let respCheck : ConformanceCheck :=
      { id := "outgoing-sse-event", name := "OutgoingSseEvent",
        description := "Sent tool response on GET stream after reconnection", status := .INFO }
    let s2 : RetryState :=
      logCheck { s1 with eventIdCounter := c2, pendingToolCallId := .null } respCheck
    (s2, { status := 200, contentType := some "text/event-stream",
           sessionHeader := some s.sessionId, events := [priming, respEvent] })
  else
    (s1, { status := 200, contentType := some "text/event-stream",
           sessionHeader := some s.sessionId, events := [priming] })

/-- The GET branch of `SSERetryScenario.handleRequest`: count the
connection, record the reconnection instant, log an `IncomingRequest`
check, record a truthy `last-event-id` header, then delegate to
`handleGetSSEStream`. -/
def handleGet (s : RetryState) (now : Rat) (lastEventId : Option String) :
    RetryState × HttpResponse :=
  let s1 : RetryState :=
    { s with getConnectionCount := s.getConnectionCount + 1,
             getReconnectionTime := some now }
  let getCheck : ConformanceCheck :=
    { id := "incoming-request", name := "IncomingRequest",
      description := "Received GET request", status := .INFO }
  let s2 : RetryState := logCheck s1 getCheck
  let s3 : RetryState :=
    match lastEventId with
    | some leid =>
      if leid ≠ "" then { s2 with lastEventIds := s2.lastEventIds ++ [leid] } else s2
    | none => s2
  handleGetSSEStream s3

/-- `SSERetryScenario.handleInitialize`: 200 JSON response echoing the
request id, plus an `OutgoingResponse` log check. -/
def handleInitialize (s : RetryState) (request : JsonRpcReq) :
    RetryState × HttpResponse :=
  let respCheck : ConformanceCheck :=
    { id := "outgoing-response", name := "OutgoingResponse",
      description := "Sent initialize response", status := .INFO }
  (logCheck s respCheck,
   { status := 200, contentType := some "application/json",
     sessionHeader := some s.sessionId, body := .jsonResult request.id })

/-- `SSERetryScenario.handleToolsList`: 200 JSON response echoing the
request id, plus an `OutgoingResponse` log check. -/
def handleToolsList (s : RetryState) (request : JsonRpcReq) :
    RetryState × HttpResponse :=
  let respCheck : ConformanceCheck :=
    { id := "outgoing-response", name := "OutgoingResponse",
      description := "Sent tools list response", status := .INFO }
  (logCheck s respCheck,
   { status := 200, contentType := some "application/json",
     sessionHeader := some s.sessionId, body := .jsonResult request.id })

/-- `SSERetryScenario.handleToolsCall`: store the request id in
`pendingToolCallId`, write the SSE head (200, `text/event-stream`), mint a
new event id and write the priming event with the retry hint, log it, and
arm a 50 ms timer that will end the stream; the timer callback (modelled by
`toolStreamCloseFire`) writes no further event, so the stream ends without
the tool result. -/
def handleToolsCall (s : RetryState) (request : JsonRpcReq) :
    RetryState × HttpResponse :=
  let s1 : RetryState := { s with pendingToolCallId := request.id }
  let c1 := s1.eventIdCounter + 1
  let priming : SseOut := { idNum := c1, retry := some s1.retryValue, payload := .priming }
  let primingCheck : ConformanceCheck :=
    { id := "outgoing-sse-event", name := "OutgoingSseEvent",
      description := "Sent SSE priming event for tools call", status := .INFO }
  let s2 : RetryState := logCheck { s1 with eventIdCounter := c1 } primingCheck
  (s2, { status := 200, contentType := some "text/event-stream",
         sessionHeader := some s.sessionId, events := [priming],
         closeDelayMs := some 50 })

/-- The `setTimeout` callback armed by `handleToolsCall`: record the
termination instant in `toolStreamCloseTime`, log an `OutgoingStreamClose`
check, and end the response stream (writing nothing further). -/
def toolStreamCloseFire (s : RetryState) (now : Rat) : RetryState :=
  let closeCheck : ConformanceCheck :=
    { id := "outgoing-stream-close", name := "OutgoingStreamClose",
      description := "Closed tools call SSE stream to trigger client reconnection",
      status := .INFO }
  logCheck { s with toolStreamCloseTime := some now } closeCheck

/-- `SSERetryScenario.handlePostRequest` after the body has been read: an
unparseable body answers 400 with a JSON-RPC parse error; otherwise an
`IncomingRequest` check is logged and the request is dispatched on its
`method`, with non-matching methods answered 202 (empty body) when the `id`
field is absent and 200 JSON otherwise. -/
def handlePostRequest (s : RetryState) (body : Option JsonRpcReq) :
    RetryState × HttpResponse :=
  match body with
  | none =>
    (s, { status := 400, contentType := some "application/json",
          body := .jsonError (-32700) })
  | some request =>
    let postCheck : ConformanceCheck :=
      { id := "incoming-request", name := "IncomingRequest",
        description := "Received POST request", status := .INFO }
    let s0 : RetryState := logCheck s postCheck
    if request.method = "initialize" then handleInitialize s0 request
    else if request.method = "tools/list" then handleToolsList s0 request
    else if request.method = "tools/call" then handleToolsCall s0 request
    else if request.id = JVal.undef then
      (s0, { status := 202 })
    else
      (s0, { status := 200, contentType := some "application/json",
             sessionHeader := some s0.sessionId, body := .jsonResult request.id })

/-- `SSERetryScenario.handleRequest`: dispatch purely on the HTTP method —
GET requests go to the SSE stream handler, POST requests to the JSON-RPC
handler, and every other method is answered 405. -/
def handleRequest (s : RetryState) (req : HttpRequest) (now : Rat) :
    RetryState × HttpResponse :=
  if req.method = "GET" then handleGet s now req.lastEventId
  else if req.method = "POST" then handlePostRequest s req.body
  else (s, { status := 405, body := .text "Method Not Allowed" })

/-- `this.lastEventIds.length > 0 && this.lastEventIds[0] !== undefined`
from `generateChecks`; in the model only truthy header values are ever
pushed onto `lastEventIds`, so the first entry, when it exists, is a
defined string. -/
def hasLastEventId (s : RetryState) : Bool :=
  decide (s.lastEventIds ≠ [])

/-- `SSERetryScenario.generateChecks`: append the verdict checks to the
check ledger.  When no GET reconnection was observed, a single
`ClientGracefulReconnect` FAILURE check is appended and the function
returns early; otherwise the graceful-reconnect SUCCESS check, the
retry-timing check (WARNING when either instant is unrecorded), and the
Last-Event-ID check are appended.  Interpolated diagnostic messages of the
measured-timing branch are not reproduced. -/
def generateChecks (s : RetryState) : RetryState :=
  if s.getConnectionCount < 1 then
    let noReconnectCheck : ConformanceCheck :=
      { id := "client-sse-graceful-reconnect",
        name := "ClientGracefulReconnect",
        description := "Client reconnects via GET after SSE stream is closed gracefully",
        status := .FAILURE,
        errorMessage := some "Client did not attempt GET reconnection after stream closure. Client should treat graceful stream close as reconnectable." }
    logCheck s noReconnectCheck
  else
    let gracefulCheck : ConformanceCheck :=
      { id := "client-sse-graceful-reconnect",
        name := "ClientGracefulReconnect",
        description := "Client reconnects via GET after SSE stream is closed gracefully",
        status := .SUCCESS }
    let timingCheck : ConformanceCheck :=
      match s.toolStreamCloseTime, s.getReconnectionTime with
      | some tc, some tr =>
        { id := "client-sse-retry-timing", name := "ClientRespectsRetryField",
          description := "Client MUST respect the retry field, waiting the given number of milliseconds before attempting to reconnect",
          status := retryTimingDecision (tr - tc) s.retryValue
            EARLY_TOLERANCE LATE_TOLERANCE VERY_LATE_MULTIPLIER }
      | _, _ =>
        { id := "client-sse-retry-timing", name := "ClientRespectsRetryField",
          description := "Client MUST respect the retry field timing",
          status := .WARNING,
          errorMessage := some "Could not measure timing - tool stream close time or GET reconnection time not recorded" }
    let lastIdCheck : ConformanceCheck :=
      { id := "client-sse-last-event-id",
        name := "ClientSendsLastEventId",
        description := "Client SHOULD send Last-Event-ID header on reconnection for resumability",
        status := if hasLastEventId s then .SUCCESS else .WARNING,
        errorMessage := if hasLastEventId s then none
          else some "Client did not send Last-Event-ID header on reconnection. This is a SHOULD requirement for resumability." }
    { s with checks := s.checks ++ [gracefulCheck, timingCheck, lastIdCheck] }

/-- `SSERetryScenario.getChecks`: run `generateChecks` on the instance state
and return the (mutated) check ledger. -/
def getChecks (s : RetryState) : RetryState × List ConformanceCheck :=
  let s' := generateChecks s
  (s', s'.checks)

/-- Is an emitted SSE event a JSON-RPC tool-result event (as opposed to a
priming event)? -/
def isToolResultEvent (e : SseOut) : Bool :=
  match e.payload with
  | .toolResult _ => true
  | .priming => false

/-- The two operations of one `SSERetryScenario` instance that write SSE
events: a GET stream request (`handleGetSSEStream`) and a `tools/call`
request (`handleToolsCall`). -/
inductive EmitOp
  | getStream
  | toolsCall (request : JsonRpcReq)
deriving DecidableEq, Repr

/-- Apply one event-emitting operation, returning the new instance state
and the SSE events written by it. -/
def applyEmitOp (s : RetryState) : EmitOp → RetryState × List SseOut
  | .getStream => ((handleGetSSEStream s).1, (handleGetSSEStream s).2.events)
  | .toolsCall r => ((handleToolsCall s r).1, (handleToolsCall s r).2.events)

/-- Run a sequence of event-emitting operations, concatenating the SSE
events they write in order. -/
def emitRun (s : RetryState) : List EmitOp → RetryState × List SseOut
  | [] => (s, [])
  | op :: ops =>
    let p := applyEmitOp s op
    let q := emitRun p.1 ops
    (q.1, p.2 ++ q.2)

end SSERetryScenario

/-- Does the list of characters `s` start with the list `pat`? -/
def charsStartWith : List Char → List Char → Bool
  | _, [] => true
  | [], _ :: _ => false
  | a :: as, b :: bs => a == b && charsStartWith as bs

/-- Does the list of characters `s` contain `pat` as a contiguous segment?
Models the JavaScript `String.prototype.includes`. -/
def charsContain : List Char → List Char → Bool
  | [], pat => charsStartWith [] pat
  | a :: rest, pat => charsStartWith (a :: rest) pat || charsContain rest pat

/-- `s.includes(pat)` on strings, via their character lists. -/
def strIncludes (s pat : String) : Bool :=
  charsContain s.data pat.data

/-- `ct?.includes('text/event-stream')` — is a response `Content-Type`
header an SSE content type? -/
def isSseContentType (ct : Option String) : Bool :=
  match ct with
  | some s => strIncludes s "text/event-stream"
  | none => false

/-- How one check is recorded: the outcome of the per-stream body
`try { ... reader.read() ... }` in
`ServerSSEMultipleStreamsScenario.run`: the 2-second race either yields an
SSE event, or resolves `null` on timeout, or the read throws. -/
inductive ReadOutcome
  | event
  | timedOut
  | readError (msg : String)
deriving DecidableEq, Repr

/-- What the prober observes about one of the N concurrent POST responses:
its `Content-Type` header, whether `response.ok` held, whether a body was
present, and the outcome of the guarded single-event read. -/
structure ObservedResponse where
  contentType : Option String
  ok : Bool
  hasBody : Bool
  read : ReadOutcome
deriving DecidableEq, Repr

/-- An element of the `eventResults` array built by
`ServerSSEMultipleStreamsScenario.run`: a skipped JSON response, an SSE
response whose guarded read completed without error (`gotEvent` true when
an event arrived before the timeout), or an SSE response whose read carries
an `error` field. -/
inductive EventResult
  | json
  | sse (gotEvent : Bool)
  | sseError (msg : String)
deriving DecidableEq, Repr

namespace ServerSSEMultipleStreamsScenario

/-- The per-response mapping of `ServerSSEMultipleStreamsScenario.run`
(step 3): non-SSE content types are skipped as JSON; an SSE response with
`!response.ok || !response.body` yields the error result
`Stream not available`; otherwise the guarded read yields an event, a
clean timeout, or an error result carrying the thrown message. -/
def classifyResponse (r : ObservedResponse) : EventResult :=
  if ¬ isSseContentType r.contentType then .json
  else if ¬ (r.ok && r.hasBody) then .sseError "Stream not available"
  else
    match r.read with
    | .event => .sse true
    | .timedOut => .sse false
    | .readError m => .sseError m

/-- `r.type === 'sse'` on an `eventResults` element. -/
def isSseResult : EventResult → Bool
  | .json => false
  | .sse _ => true
  | .sseError _ => true

/-- `!('error' in r)` on an `eventResults` element of type `sse`. -/
def isFunctionalResult : EventResult → Bool
  | .sse _ => true
  | .json => false
  | .sseError _ => false

/-- An `eventResults` element carrying an `error` field. -/
def isSseErrorResult : EventResult → Bool
  | .sseError _ => true
  | .json => false
  | .sse _ => false

/-- `sseStreams`: the number of responses whose `Content-Type` header is
`text/event-stream`. -/
def numSseStreams (rs : List ObservedResponse) : Nat :=
  (rs.filter (fun r => isSseContentType r.contentType)).length

/-- The `eventResults` array: the per-response classification in order. -/
def eventResults (rs : List ObservedResponse) : List EventResult :=
  rs.map classifyResponse

/-- `sseResults`: the `eventResults` elements of type `sse`. -/
def sseResults (rs : List ObservedResponse) : List EventResult :=
  (eventResults rs).filter isSseResult

/-- `functionalSseStreams`: the number of SSE results without an `error`
field. -/
def functionalSseStreams (rs : List ObservedResponse) : Nat :=
  ((sseResults rs).filter isFunctionalResult).length

/-- The `status` of the `ServerSSEStreamsFunctional` check pushed by
`ServerSSEMultipleStreamsScenario.run`: when at least one response was an
SSE stream, SUCCESS/WARNING/FAILURE by how many were functional; when no
response was SSE, the INFO branch is taken. -/
def streamsFunctionalStatus (rs : List ObservedResponse) : CheckStatus :=
  if numSseStreams rs > 0 then
    if functionalSseStreams rs = numSseStreams rs then .SUCCESS
    else if functionalSseStreams rs > 0 then .WARNING
    else .FAILURE
  else .INFO

end ServerSSEMultipleStreamsScenario

/-- The outcome of the `try` body of a client-role scenario `run`: either
the body ran to completion leaving the check ledger `checks`, or an
exception carrying message `msg` escaped the body after the ledger had
accumulated `checksSoFar`. -/
inductive BodyOutcome
  | completed (checks : List ConformanceCheck)
  | threw (checksSoFar : List ConformanceCheck) (msg : String)
deriving DecidableEq, Repr

/-- What a client-role scenario `run` produces: the returned check list,
whether the `finally` cleanup block executed, and whether `client.close()`
was invoked inside it (it is guarded by `if (client)`). -/
structure RunResult where
  checks : List ConformanceCheck
  finallyRan : Bool
  clientCloseCalled : Bool
deriving DecidableEq, Repr

namespace ServerSSEMultipleStreamsScenario

/-- The single FAILURE check the `catch` block of
`ServerSSEMultipleStreamsScenario.run` pushes, carrying the error text. -/
def errorCheck (msg : String) : ConformanceCheck :=
  { id := "server-sse-multiple-streams-error",
    name := "ServerSSEMultipleStreamsTest",
    description := "Test server multiple SSE streams behavior",
    status := .FAILURE,
    errorMessage := some ("Error: " ++ msg) }

/-- The `try`/`catch`/`finally` shell of
`ServerSSEMultipleStreamsScenario.run`: an exception from the body is
converted into exactly one appended FAILURE check; the `finally` block runs
on every exit path and closes the client when one was created; the
accumulated check list is returned normally in both cases. -/
def run (outcome : BodyOutcome) (clientCreated : Bool) : RunResult :=
  let checksAfterCatch :=
    match outcome with
    | .completed cs => cs
    | .threw cs msg => cs ++ [errorCheck msg]
  { checks := checksAfterCatch, finallyRan := true, clientCloseCalled := clientCreated }

end ServerSSEMultipleStreamsScenario

namespace ServerSSEPollingScenario

/-- The single FAILURE check the `catch` block of
`ServerSSEPollingScenario.run` pushes, carrying the error text. -/
def errorCheck (msg : String) : ConformanceCheck :=
  { id := "server-sse-polling-error",
    name := "ServerSSEPollingTest",
    description := "Test server SSE polling behavior",
    status := .FAILURE,
    errorMessage := some ("Error: " ++ msg) }

/-- The `try`/`catch`/`finally` shell of `ServerSSEPollingScenario.run`,
identical in shape to the multiple-streams scenario: one FAILURE check on
exception, guaranteed cleanup, normal return of the ledger. -/
def run (outcome : BodyOutcome) (clientCreated : Bool) : RunResult :=
  let checksAfterCatch :=
    match outcome with
    | .completed cs => cs
    | .threw cs msg => cs ++ [errorCheck msg]
  { checks := checksAfterCatch, finallyRan := true, clientCloseCalled := clientCreated }

end ServerSSEPollingScenario

open SSERetryScenario in
/-- **C1.** The reconnection-timing decision of `generateChecks`, at
`retryValue = 500`, `EARLY_TOLERANCE = 50`, `LATE_TOLERANCE = 200`,
`VERY_LATE_MULTIPLIER = 2`, maps every observed delay `d` to: FAILURE when
`d < 450` (too early), FAILURE when `d > 1000` (very late), WARNING when
`700 < d ≤ 1000`, and SUCCESS otherwise; in particular the boundary values
540 → SUCCESS, 440 → FAILURE, 449 → FAILURE, 450 → SUCCESS, 701 → WARNING,
700 → SUCCESS, 1001 → FAILURE, 1000 → WARNING all hold, and the constants
and the initial `retryValue` have those values. -/
theorem claim_C1 :
    (∀ d : Rat, retryTimingDecision d 500 50 200 2 =
      (if d < 450 then CheckStatus.FAILURE
       else if 1000 < d then CheckStatus.FAILURE
       else if 700 < d then CheckStatus.WARNING
       else CheckStatus.SUCCESS)) ∧
    EARLY_TOLERANCE = 50 ∧ LATE_TOLERANCE = 200 ∧ VERY_LATE_MULTIPLIER = 2 ∧
    (∀ sid, (initState sid).retryValue = 500) ∧
    retryTimingDecision 540 500 50 200 2 = CheckStatus.SUCCESS ∧
    retryTimingDecision 440 500 50 200 2 = CheckStatus.FAILURE ∧
    retryTimingDecision 449 500 50 200 2 = CheckStatus.FAILURE ∧
    retryTimingDecision 450 500 50 200 2 = CheckStatus.SUCCESS ∧
    retryTimingDecision 701 500 50 200 2 = CheckStatus.WARNING ∧
    retryTimingDecision 700 500 50 200 2 = CheckStatus.SUCCESS ∧
    retryTimingDecision 1001 500 50 200 2 = CheckStatus.FAILURE ∧
    retryTimingDecision 1000 500 50 200 2 = CheckStatus.WARNING := by
  refine ⟨?_, rfl, rfl, rfl, fun _ => rfl, ?_, ?_, ?_, ?_, ?_, ?_, ?_, ?_⟩
  · intro d
    simp only [retryTimingDecision]
    norm_num
  all_goals norm_num [retryTimingDecision]

open SSERetryScenario in
/-- **C2.** The pending deferred tool response is delivered at most once:
when `handleGetSSEStream` finds `pendingToolCallId` non-null it writes
exactly one JSON-RPC result event, correlated to the stored request id,
and resets `pendingToolCallId` to null; a second resumption GET on the
resulting state writes no result event — its stream receives only a fresh
priming event. -/
theorem claim_C2 (s : RetryState) (h : s.pendingToolCallId ≠ JVal.null) :
    (handleGetSSEStream s).2.events.filter isToolResultEvent =
      [{ idNum := s.eventIdCounter + 2, payload := .toolResult s.pendingToolCallId }] ∧
    (handleGetSSEStream s).1.pendingToolCallId = JVal.null ∧
    ∀ now leid,
      (handleGet (handleGetSSEStream s).1 now leid).2.events.filter isToolResultEvent = [] ∧
      (handleGet (handleGetSSEStream s).1 now leid).2.events =
        [{ idNum := s.eventIdCounter + 3, retry := some s.retryValue, payload := .priming }] := by
  refine ⟨?_, ?_, ?_⟩
  · simp [handleGetSSEStream, logCheck, h, isToolResultEvent]
  · simp [handleGetSSEStream, logCheck, h]
  · intro now leid
    rcases leid with _ | l
    · constructor <;>
        simp [handleGet, handleGetSSEStream, logCheck, h, isToolResultEvent]
    · by_cases hl : l = ""
      · subst hl
        constructor <;>
          simp [handleGet, handleGetSSEStream, logCheck, h, isToolResultEvent]
      · constructor <;>
          simp [handleGet, handleGetSSEStream, logCheck, h, hl, isToolResultEvent]

open SSERetryScenario in
/-- Concrete instance state with a pending deferred response, used to
witness C2. -/
def c2State : SSERetryScenario.RetryState :=
  { SSERetryScenario.initState "session-0" with pendingToolCallId := JVal.num 1 }

open SSERetryScenario in
/-- Witness for C2: at a state whose pending id is the number 1, the first
resumption delivers exactly the one correlated result event and a second
resumption delivers none. -/
theorem claim_C2_witness :
    (handleGetSSEStream c2State).2.events.filter isToolResultEvent =
      [{ idNum := 2, payload := .toolResult (JVal.num 1) }] ∧
    (handleGetSSEStream c2State).1.pendingToolCallId = JVal.null ∧
    (handleGet (handleGetSSEStream c2State).1 0
        (some "event-2")).2.events.filter isToolResultEvent = [] := by
  obtain ⟨h1, h2, h3⟩ := claim_C2 c2State (by simp [c2State, initState])
  exact ⟨h1, h2, (h3 0 (some "event-2")).1⟩

open SSERetryScenario in
/-- Each event-emitting operation of the harness writes consecutively
numbered event ids continuing from the instance counter, and leaves the
counter at the last minted id. -/
theorem applyEmitOp_idNums (s : SSERetryScenario.RetryState)
    (op : SSERetryScenario.EmitOp) :
    ((applyEmitOp s op).2.map SseOut.idNum) =
      List.range' (s.eventIdCounter + 1) (applyEmitOp s op).2.length ∧
    (applyEmitOp s op).1.eventIdCounter =
      s.eventIdCounter + (applyEmitOp s op).2.length := by
  cases op with
  | getStream =>
    by_cases h : s.pendingToolCallId = JVal.null <;>
      constructor <;>
        simp [applyEmitOp, handleGetSSEStream, logCheck, h, List.range']
  | toolsCall r =>
    constructor <;>
      simp [applyEmitOp, handleToolsCall, logCheck, List.range']

open SSERetryScenario in
/-- Across any sequence of emitting operations the written event ids are
exactly the consecutive numbers continuing from the instance counter, and
the counter ends at the last of them. -/
theorem emitRun_idNums (s : SSERetryScenario.RetryState)
    (ops : List SSERetryScenario.EmitOp) :
    ((emitRun s ops).2.map SseOut.idNum) =
      List.range' (s.eventIdCounter + 1) (emitRun s ops).2.length ∧
    (emitRun s ops).1.eventIdCounter =
      s.eventIdCounter + (emitRun s ops).2.length := by
  induction ops generalizing s with
  | nil => simp [emitRun]
  | cons op ops ih =>
    obtain ⟨ha1, ha2⟩ := applyEmitOp_idNums s op
    obtain ⟨hi1, hi2⟩ := ih (applyEmitOp s op).1
    simp only [emitRun]
    constructor
    · rw [List.map_append, ha1, hi1, ha2, List.length_append]
      have hstep : s.eventIdCounter + (applyEmitOp s op).2.length + 1 =
          s.eventIdCounter + 1 + 1 * (applyEmitOp s op).2.length := by omega
      rw [hstep, List.range'_append]
      congr 1
      omega
    · rw [List.length_append, hi2, ha2]
      omega

open SSERetryScenario in
/-- **C3.** Every SSE event emitted by `handleGetSSEStream` or
`handleToolsCall` is minted by incrementing the single `eventIdCounter`
(on the wire the id string is `event-` followed by the numeric part), so
across any sequence of such invocations the numeric parts of consecutively
emitted event ids are strictly increasing, all emitted ids are pairwise
distinct, and each minted id lies strictly above the counter value the
sequence started from and at most at the final counter value. -/
theorem claim_C3 (s : SSERetryScenario.RetryState)
    (ops : List SSERetryScenario.EmitOp) :
    List.Chain' (· < ·) ((emitRun s ops).2.map SseOut.idNum) ∧
    ((emitRun s ops).2.map SseOut.idNum).Nodup ∧
    ∀ e ∈ (emitRun s ops).2, s.eventIdCounter < e.idNum ∧
      e.idNum ≤ (emitRun s ops).1.eventIdCounter := by
  obtain ⟨h1, h2⟩ := emitRun_idNums s ops
  have hp : List.Pairwise (· < ·) ((emitRun s ops).2.map SseOut.idNum) := by
    rw [h1]
    exact List.pairwise_lt_range' _ _
  refine ⟨List.chain'_iff_pairwise.mpr hp, hp.imp (fun hlt => Nat.ne_of_lt hlt), ?_⟩
  intro e he
  have hmem : e.idNum ∈ (emitRun s ops).2.map SseOut.idNum :=
    List.mem_map_of_mem _ he
  rw [h1, List.mem_range'] at hmem
  obtain ⟨i, hi, he'⟩ := hmem
  omega

open SSERetryScenario in
/-- Both branches of `handleGetSSEStream` answer 200 with an SSE content
type. -/
theorem handleGetSSEStream_head (s : SSERetryScenario.RetryState) :
    (handleGetSSEStream s).2.status = 200 ∧
    (handleGetSSEStream s).2.contentType = some "text/event-stream" := by
  by_cases h : s.pendingToolCallId = JVal.null <;>
    constructor <;> simp [handleGetSSEStream, logCheck, h]

open SSERetryScenario in
/-- Every GET request is answered 200 with an SSE content type, whatever
its headers. -/
theorem handleGet_head (s : SSERetryScenario.RetryState) (now : Rat)
    (leid : Option String) :
    (handleGet s now leid).2.status = 200 ∧
    (handleGet s now leid).2.contentType = some "text/event-stream" := by
  rcases leid with _ | l
  · simpa [handleGet] using handleGetSSEStream_head _
  · by_cases hl : l = ""
    · subst hl
      simpa [handleGet] using handleGetSSEStream_head _
    · simpa [handleGet, hl] using handleGetSSEStream_head _

open SSERetryScenario in
/-- Every branch of the POST handler answers 400, 200 or 202 — never
405. -/
theorem handlePostRequest_status_ne_405 (s : SSERetryScenario.RetryState)
    (body : Option JsonRpcReq) : (handlePostRequest s body).2.status ≠ 405 := by
  rcases body with _ | r
  · simp [handlePostRequest]
  · simp only [handlePostRequest]
    split_ifs <;>
      simp [handleInitialize, handleToolsList, handleToolsCall, logCheck]

open SSERetryScenario in
/-- **C4 (counterexample).** The claim says a GET without a session id, or
a request on an unsupported path, is answered 405; the handler in fact
answers every GET — session id or not, on any path — with a 200 SSE
stream, and a POST on an unsupported path with its normal JSON-RPC
dispatch (here 200), never 405. -/
theorem claim_C4_counterexample :
    (handleRequest (SSERetryScenario.initState "session-0")
      { method := "GET", sessionId := none } 0).2.status = 200 ∧
    (handleRequest (SSERetryScenario.initState "session-0")
      { method := "GET", sessionId := none } 0).2.status ≠ 405 ∧
    (handleRequest (SSERetryScenario.initState "session-0")
      { method := "GET", url := "/unsupported/path", sessionId := none } 0).2.status = 200 ∧
    (handleRequest (SSERetryScenario.initState "session-0")
      { method := "POST", url := "/unsupported/path",
        body := some { method := "initialize", id := JVal.num 0 } } 0).2.status = 200 := by
  exact ⟨rfl, by decide, rfl, rfl⟩

open SSERetryScenario in
/-- **C4 (amended).** `handleRequest` answers 405 exactly when the HTTP
method is neither GET nor POST; in particular every GET — with or without
a session id, on any path — is answered 200 with an SSE stream. -/
theorem claim_C4_amended (s : SSERetryScenario.RetryState)
    (req : HttpRequest) (now : Rat) :
    ((handleRequest s req now).2.status = 405 ↔
      (req.method ≠ "GET" ∧ req.method ≠ "POST")) ∧
    (req.method = "GET" →
      (handleRequest s req now).2.status = 200 ∧
      (handleRequest s req now).2.contentType = some "text/event-stream") := by
  by_cases hg : req.method = "GET"
  · have hh := handleGet_head s now req.lastEventId
    constructor
    · simp [handleRequest, hg, hh.1]
    · intro _
      simpa [handleRequest, hg] using hh
  · by_cases hp : req.method = "POST"
    · have hne := handlePostRequest_status_ne_405 s req.body
      constructor
      · rw [handleRequest, if_neg hg, if_pos hp]
        constructor
        · intro h
          exact absurd h hne
        · rintro ⟨_, hcon⟩
          exact absurd hp hcon
      · intro hcon
        exact absurd hcon hg
    · constructor
      · rw [handleRequest, if_neg hg, if_neg hp]
        simp [hg, hp]
      · intro hcon
        exact absurd hcon hg

open SSERetryScenario in
/-- Witness for the amended C4: a concrete GET without a session id is
answered 200, and a concrete DELETE is answered 405. -/
theorem claim_C4_amended_witness :
    (handleRequest (SSERetryScenario.initState "session-0")
      { method := "GET" } 0).2.status = 200 ∧
    (handleRequest (SSERetryScenario.initState "session-0")
      { method := "DELETE" } 0).2.status = 405 := by
  refine ⟨((claim_C4_amended _ _ _).2 rfl).1, ?_⟩
  exact (claim_C4_amended (SSERetryScenario.initState "session-0")
    { method := "DELETE" } 0).1.mpr (by decide)

open SSERetryScenario in
/-- **C5 (counterexample).** The claim says every POST notification (body
without an `id`) is answered 202 regardless of its method; a `tools/list`
notification is in fact dispatched to the `tools/list` handler and
answered 200 with a JSON body, not 202. -/
theorem claim_C5_counterexample :
    (handleRequest (SSERetryScenario.initState "session-0")
      { method := "POST", body := some { method := "tools/list" } } 0).2.status = 200 ∧
    (handleRequest (SSERetryScenario.initState "session-0")
      { method := "POST", body := some { method := "tools/list" } } 0).2.status ≠ 202 := by
  exact ⟨rfl, by decide⟩

open SSERetryScenario in
/-- **C5 (amended).** A POST JSON-RPC body with no `id` field whose method
is none of `initialize`, `tools/list`, `tools/call` is answered 202 with
an empty body and no SSE events. -/
theorem claim_C5_amended (s : SSERetryScenario.RetryState) (u : String)
    (r : JsonRpcReq) (now : Rat)
    (hid : r.id = JVal.undef)
    (h1 : r.method ≠ "initialize") (h2 : r.method ≠ "tools/list")
    (h3 : r.method ≠ "tools/call") :
    (handleRequest s { method := "POST", url := u, body := some r } now).2.status = 202 ∧
    (handleRequest s { method := "POST", url := u, body := some r } now).2.body = RespBody.empty ∧
    (handleRequest s { method := "POST", url := u, body := some r } now).2.events = [] := by
  refine ⟨?_, ?_, ?_⟩ <;>
    simp [handleRequest, handlePostRequest, logCheck, h1, h2, h3, hid]

open SSERetryScenario in
/-- Witness for the amended C5: a concrete `notifications/initialized`
notification is answered 202. -/
theorem claim_C5_amended_witness :
    (handleRequest (SSERetryScenario.initState "session-0")
      { method := "POST",
        body := some { method := "notifications/initialized" } } 0).2.status = 202 := by
  exact (claim_C5_amended (SSERetryScenario.initState "session-0") "/"
    { method := "notifications/initialized" } 0 rfl
    (by decide) (by decide) (by decide)).1

open SSERetryScenario in
/-- **C6.** For every POST `tools/call` request, `handleToolsCall` answers
200 with `Content-Type: text/event-stream`, immediately writes exactly one
priming event carrying the freshly minted event id and the session retry
hint (`retryValue`, which a fresh instance sets to 500), stores the
JSON-RPC id of the request as the pending deferred response, arms the
fixed 50 ms stream close, writes no tool-result event, and the close
callback records the termination instant in `toolStreamCloseTime`. -/
theorem claim_C6 (s : SSERetryScenario.RetryState) (request : JsonRpcReq) :
    (handleToolsCall s request).2.status = 200 ∧
    (handleToolsCall s request).2.contentType = some "text/event-stream" ∧
    (handleToolsCall s request).2.events =
      [{ idNum := s.eventIdCounter + 1, retry := some s.retryValue,
         payload := .priming }] ∧
    (handleToolsCall s request).2.events.filter isToolResultEvent = [] ∧
    (handleToolsCall s request).1.pendingToolCallId = request.id ∧
    (handleToolsCall s request).2.closeDelayMs = some 50 ∧
    (∀ t : Rat,
      (toolStreamCloseFire (handleToolsCall s request).1 t).toolStreamCloseTime = some t) ∧
    (∀ sid, (SSERetryScenario.initState sid).retryValue = 500) := by
  refine ⟨?_, ?_, ?_, ?_, ?_, ?_, fun t => ?_, fun sid => rfl⟩ <;>
    simp [handleToolsCall, toolStreamCloseFire, logCheck, isToolResultEvent]

open SSERetryScenario in
/-- **C7 (counterexample).** The claim says every `getChecks` call yields
all three verdict checks, including in the no-reconnection case; on a
fresh instance (no GET observed) `getChecks` in fact yields only the
`ClientGracefulReconnect` FAILURE verdict — `generateChecks` returns early
and neither `ClientRespectsRetryField` nor `ClientSendsLastEventId`
appears. -/
theorem claim_C7_counterexample :
    (getChecks (SSERetryScenario.initState "session-0")).2.map
        (fun c => (c.name, c.status)) =
      [("ClientGracefulReconnect", CheckStatus.FAILURE)] ∧
    (getChecks (SSERetryScenario.initState "session-0")).2.countP
      (fun c => c.name == "ClientRespectsRetryField") = 0 ∧
    (getChecks (SSERetryScenario.initState "session-0")).2.countP
      (fun c => c.name == "ClientSendsLastEventId") = 0 := by
  exact ⟨rfl, rfl, rfl⟩

open SSERetryScenario in
/-- **C7 (amended).** When at least one GET reconnection was observed,
`getChecks` appends all three verdict checks: `ClientGracefulReconnect`
SUCCESS, `ClientRespectsRetryField` with the timing verdict (WARNING when
either instant is unrecorded), and `ClientSendsLastEventId` (WARNING
exactly when no Last-Event-ID header was recorded).  When no reconnection
was observed, it appends only the `ClientGracefulReconnect` FAILURE check
and returns early. -/
theorem claim_C7_amended (s : SSERetryScenario.RetryState) :
    (1 ≤ s.getConnectionCount →
      (getChecks s).2.map (fun c => (c.name, c.status)) =
        s.checks.map (fun c => (c.name, c.status)) ++
          [("ClientGracefulReconnect", CheckStatus.SUCCESS),
           ("ClientRespectsRetryField",
             match s.toolStreamCloseTime, s.getReconnectionTime with
             | some tc, some tr =>
               retryTimingDecision (tr - tc) s.retryValue
                 EARLY_TOLERANCE LATE_TOLERANCE VERY_LATE_MULTIPLIER
             | _, _ => CheckStatus.WARNING),
           ("ClientSendsLastEventId",
             if s.lastEventIds = [] then CheckStatus.WARNING
             else CheckStatus.SUCCESS)]) ∧
    (s.getConnectionCount = 0 →
      (getChecks s).2.map (fun c => (c.name, c.status)) =
        s.checks.map (fun c => (c.name, c.status)) ++
          [("ClientGracefulReconnect", CheckStatus.FAILURE)]) := by
  constructor
  · intro h
    have hc : ¬ s.getConnectionCount < 1 := by omega
    rcases hct : s.toolStreamCloseTime with _ | tc <;>
      rcases hgr : s.getReconnectionTime with _ | tr <;>
        by_cases hle : s.lastEventIds = [] <;>
          simp [getChecks, generateChecks, hc, hct, hgr, hasLastEventId, hle]
  · intro h
    have hc : s.getConnectionCount < 1 := by omega
    simp [getChecks, generateChecks, logCheck, hc]

open SSERetryScenario in
/-- Witness for the amended C7: with one observed reconnection and nothing
measured, all three verdicts are emitted; on a fresh instance only the
FAILURE verdict is. -/
theorem claim_C7_amended_witness :
    (getChecks { SSERetryScenario.initState "session-0" with
        getConnectionCount := 1 }).2.map (fun c => (c.name, c.status)) =
      [("ClientGracefulReconnect", CheckStatus.SUCCESS),
       ("ClientRespectsRetryField", CheckStatus.WARNING),
       ("ClientSendsLastEventId", CheckStatus.WARNING)] ∧
    (getChecks (SSERetryScenario.initState "session-0")).2.map
        (fun c => (c.name, c.status)) =
      [("ClientGracefulReconnect", CheckStatus.FAILURE)] := by
  constructor
  · exact (claim_C7_amended _).1 (by decide)
  · exact (claim_C7_amended _).2 rfl

open SSERetryScenario in
/-- `generateChecks` never touches `getConnectionCount`. -/
theorem generateChecks_getConnectionCount (s : SSERetryScenario.RetryState) :
    (generateChecks s).getConnectionCount = s.getConnectionCount := by
  by_cases h : s.getConnectionCount < 1 <;>
    simp [generateChecks, logCheck, h]

open SSERetryScenario in
/-- How one `generateChecks` call changes the number of ledger entries
carrying a given check name: in the early-return branch only the
`ClientGracefulReconnect` verdict is appended, otherwise all three verdict
names are appended once each. -/
theorem generateChecks_name_count (s : SSERetryScenario.RetryState) (n : String) :
    (generateChecks s).checks.countP (fun c => c.name == n) =
      s.checks.countP (fun c => c.name == n) +
        (if s.getConnectionCount < 1 then
           (if ("ClientGracefulReconnect" : String) == n then 1 else 0)
         else
           ((if ("ClientGracefulReconnect" : String) == n then 1 else 0) +
            (if ("ClientRespectsRetryField" : String) == n then 1 else 0) +
            (if ("ClientSendsLastEventId" : String) == n then 1 else 0))) := by
  by_cases h : s.getConnectionCount < 1
  · simp [generateChecks, logCheck, h, List.countP_append, List.countP_cons]
  · rcases hct : s.toolStreamCloseTime with _ | tc <;>
      rcases hgr : s.getReconnectionTime with _ | tr <;>
        simp [generateChecks, logCheck, h, hct, hgr, List.countP_append,
          List.countP_cons] <;> omega

open SSERetryScenario in
/-- **C10 (counterexample).** The claim says two successive `getChecks`
calls return each of the three verdict checks twice for any scenario
state; on a fresh instance (no reconnection observed) two calls return the
`ClientGracefulReconnect` check twice but the `ClientRespectsRetryField`
check zero times. -/
theorem claim_C10_counterexample :
    (getChecks (getChecks (SSERetryScenario.initState "session-0")).1).2.countP
      (fun c => c.name == "ClientGracefulReconnect") = 2 ∧
    (getChecks (getChecks (SSERetryScenario.initState "session-0")).1).2.countP
      (fun c => c.name == "ClientRespectsRetryField") = 0 ∧
    (getChecks (getChecks (SSERetryScenario.initState "session-0")).1).2.countP
      (fun c => c.name == "ClientSendsLastEventId") = 0 := by
  exact ⟨rfl, rfl, rfl⟩

open SSERetryScenario in
/-- **C10 (amended).** `getChecks` is not idempotent: each call re-invokes
`generateChecks`, which appends its verdict checks to the same internal
array again.  Two successive calls always add the `ClientGracefulReconnect`
verdict twice; when a reconnection was observed they add each of the three
verdict checks twice; when none was observed the other two verdicts are
never appended. -/
theorem claim_C10_amended (s : SSERetryScenario.RetryState) :
    ((getChecks (getChecks s).1).2.countP
        (fun c => c.name == "ClientGracefulReconnect") =
      s.checks.countP (fun c => c.name == "ClientGracefulReconnect") + 2) ∧
    (1 ≤ s.getConnectionCount →
      ((getChecks (getChecks s).1).2.countP
          (fun c => c.name == "ClientRespectsRetryField") =
        s.checks.countP (fun c => c.name == "ClientRespectsRetryField") + 2) ∧
      ((getChecks (getChecks s).1).2.countP
          (fun c => c.name == "ClientSendsLastEventId") =
        s.checks.countP (fun c => c.name == "ClientSendsLastEventId") + 2)) ∧
    (s.getConnectionCount = 0 →
      ((getChecks (getChecks s).1).2.countP
          (fun c => c.name == "ClientRespectsRetryField") =
        s.checks.countP (fun c => c.name == "ClientRespectsRetryField")) ∧
      ((getChecks (getChecks s).1).2.countP
          (fun c => c.name == "ClientSendsLastEventId") =
        s.checks.countP (fun c => c.name == "ClientSendsLastEventId"))) := by
  have hpres := generateChecks_getConnectionCount s
  have key : ∀ n : String,
      (getChecks (getChecks s).1).2.countP (fun c => c.name == n) =
        s.checks.countP (fun c => c.name == n) +
          (if s.getConnectionCount < 1 then
             (if ("ClientGracefulReconnect" : String) == n then 1 else 0)
           else
             ((if ("ClientGracefulReconnect" : String) == n then 1 else 0) +
              (if ("ClientRespectsRetryField" : String) == n then 1 else 0) +
              (if ("ClientSendsLastEventId" : String) == n then 1 else 0))) +
          (if s.getConnectionCount < 1 then
             (if ("ClientGracefulReconnect" : String) == n then 1 else 0)
           else
             ((if ("ClientGracefulReconnect" : String) == n then 1 else 0) +
              (if ("ClientRespectsRetryField" : String) == n then 1 else 0) +
              (if ("ClientSendsLastEventId" : String) == n then 1 else 0))) := by
    intro n
    have h1 := generateChecks_name_count s n
    have h2 := generateChecks_name_count (generateChecks s) n
    rw [hpres] at h2
    simp only [getChecks] at *
    omega
  refine ⟨?_, fun h => ⟨?_, ?_⟩, fun h => ⟨?_, ?_⟩⟩
  · have := key "ClientGracefulReconnect"
    by_cases h : s.getConnectionCount < 1 <;> simp [h] at this <;> omega
  · have := key "ClientRespectsRetryField"
    have hc : ¬ s.getConnectionCount < 1 := by omega
    simp [hc] at this
    omega
  · have := key "ClientSendsLastEventId"
    have hc : ¬ s.getConnectionCount < 1 := by omega
    simp [hc] at this
    omega
  · have := key "ClientRespectsRetryField"
    have hc : s.getConnectionCount < 1 := by omega
    simp [hc] at this
    omega
  · have := key "ClientSendsLastEventId"
    have hc : s.getConnectionCount < 1 := by omega
    simp [hc] at this
    omega

open SSERetryScenario in
/-- Witness for the amended C10: on a state with one observed
reconnection, two `getChecks` calls yield each verdict twice; on a fresh
instance they yield the graceful-reconnect verdict twice and the others
not at all. -/
theorem claim_C10_amended_witness :
    ((getChecks (getChecks { SSERetryScenario.initState "session-0" with
        getConnectionCount := 1 }).1).2.countP
      (fun c => c.name == "ClientRespectsRetryField") = 2) ∧
    ((getChecks (getChecks (SSERetryScenario.initState "session-0")).1).2.countP
      (fun c => c.name == "ClientGracefulReconnect") = 2) := by
  constructor
  · exact ((claim_C10_amended _).2.1 (by decide)).1
  · exact (claim_C10_amended _).1

namespace ServerSSEMultipleStreamsScenario

/-- A classified response is of type `sse` exactly when its `Content-Type`
header was an SSE content type. -/
theorem isSseResult_classifyResponse (r : ObservedResponse) :
    isSseResult (classifyResponse r) = isSseContentType r.contentType := by
  rcases hread : r.read <;>
    by_cases h : isSseContentType r.contentType <;>
      by_cases hob : r.ok && r.hasBody <;>
        simp [classifyResponse, isSseResult, h, hob, hread]

/-- The content-type count of SSE streams equals the number of `sse`-typed
entries of `eventResults`. -/
theorem numSseStreams_eq (rs : List ObservedResponse) :
    numSseStreams rs = (eventResults rs).countP isSseResult := by
  rw [numSseStreams, eventResults, List.countP_map, ← List.countP_eq_length_filter]
  refine (List.countP_congr fun r _ => ?_).symm
  simp [Function.comp, isSseResult_classifyResponse]

/-- `functionalSseStreams` counts the functional entries of
`eventResults` (every functional entry is of type `sse`). -/
theorem functionalSseStreams_eq (rs : List ObservedResponse) :
    functionalSseStreams rs = (eventResults rs).countP isFunctionalResult := by
  rw [functionalSseStreams, sseResults, ← List.countP_eq_length_filter,
    List.countP_filter]
  refine List.countP_congr fun e _ => ?_
  cases e <;> simp [isFunctionalResult, isSseResult]

/-- Every `sse`-typed entry is either functional or carries an error, and
not both. -/
theorem countP_sse_split (l : List EventResult) :
    l.countP isSseResult =
      l.countP isFunctionalResult + l.countP isSseErrorResult := by
  induction l with
  | nil => simp
  | cons e t ih =>
    cases e <;>
      simp [List.countP_cons, isSseResult, isFunctionalResult,
        isSseErrorResult, ih] <;>
      omega

end ServerSSEMultipleStreamsScenario

open ServerSSEMultipleStreamsScenario in
/-- **C8.** The `ServerSSEStreamsFunctional` verdict over the N = 3
concurrent POST responses: SUCCESS when there was at least one SSE stream
and every SSE-returning response yielded an event or a clean timeout (no
read error); WARNING when some SSE streams were functional and some
errored; FAILURE when there was at least one SSE stream and every one
errored; INFO when every response was plain JSON. -/
theorem claim_C8 (rs : List ObservedResponse) (_hlen : rs.length = 3) :
    ((0 < numSseStreams rs ∧
        ∀ e ∈ eventResults rs, isSseResult e = true → isFunctionalResult e = true) →
      streamsFunctionalStatus rs = CheckStatus.SUCCESS) ∧
    (((∃ e ∈ eventResults rs, isFunctionalResult e = true) ∧
        (∃ e ∈ eventResults rs, isSseErrorResult e = true)) →
      streamsFunctionalStatus rs = CheckStatus.WARNING) ∧
    ((0 < numSseStreams rs ∧
        ∀ e ∈ eventResults rs, isSseResult e = true → isSseErrorResult e = true) →
      streamsFunctionalStatus rs = CheckStatus.FAILURE) ∧
    ((∀ e ∈ eventResults rs, e = EventResult.json) →
      streamsFunctionalStatus rs = CheckStatus.INFO) := by
  refine ⟨?_, ?_, ?_, ?_⟩
  · rintro ⟨hpos, hall⟩
    have heq : functionalSseStreams rs = numSseStreams rs := by
      rw [functionalSseStreams_eq, numSseStreams_eq]
      refine List.countP_congr fun e he => ?_
      constructor
      · intro hf
        cases e <;> simp_all [isFunctionalResult, isSseResult]
      · exact hall e he
    rw [streamsFunctionalStatus, if_pos hpos, if_pos heq]
  · rintro ⟨⟨e1, he1, hf1⟩, ⟨e2, he2, he2e⟩⟩
    have hfpos : 0 < functionalSseStreams rs := by
      rw [functionalSseStreams_eq]
      exact List.countP_pos_iff.mpr ⟨e1, he1, hf1⟩
    have hepos : 0 < (eventResults rs).countP isSseErrorResult :=
      List.countP_pos_iff.mpr ⟨e2, he2, he2e⟩
    have hsplit := countP_sse_split (eventResults rs)
    have hlt : functionalSseStreams rs < numSseStreams rs := by
      rw [functionalSseStreams_eq, numSseStreams_eq]
      omega
    have hpos : 0 < numSseStreams rs := by omega
    rw [streamsFunctionalStatus, if_pos hpos, if_neg (by omega), if_pos hfpos]
  · rintro ⟨hpos, hall⟩
    have hzero : functionalSseStreams rs = 0 := by
      rw [functionalSseStreams_eq]
      refine List.countP_eq_zero.mpr fun e he hf => ?_
      have hs : isSseResult e = true := by
        cases e <;> simp_all [isFunctionalResult, isSseResult]
      have := hall e he hs
      cases e <;> simp_all [isFunctionalResult, isSseErrorResult]
    rw [streamsFunctionalStatus, if_pos hpos, if_neg (by omega), if_neg (by omega)]
  · intro hall
    have hzero : numSseStreams rs = 0 := by
      rw [numSseStreams_eq]
      refine List.countP_eq_zero.mpr fun e he hs => ?_
      have := hall e he
      subst this
      simp [isSseResult] at hs
    rw [streamsFunctionalStatus, if_neg (by omega)]

/-- Three concurrent responses, all SSE and all functional (two events,
one clean timeout). -/
def c8AllFunctional : List ObservedResponse :=
  [{ contentType := some "text/event-stream", ok := true, hasBody := true,
     read := .event },
   { contentType := some "text/event-stream", ok := true, hasBody := true,
     read := .timedOut },
   { contentType := some "text/event-stream", ok := true, hasBody := true,
     read := .event }]

/-- Three concurrent responses, two functional SSE streams and one whose
read errored. -/
def c8Mixed : List ObservedResponse :=
  [{ contentType := some "text/event-stream", ok := true, hasBody := true,
     read := .event },
   { contentType := some "text/event-stream", ok := true, hasBody := true,
     read := .readError "socket hang up" },
   { contentType := some "text/event-stream", ok := true, hasBody := true,
     read := .timedOut }]

/-- Three concurrent responses, all SSE and all errored (one unavailable
stream, two read errors). -/
def c8AllErrored : List ObservedResponse :=
  [{ contentType := some "text/event-stream", ok := false, hasBody := true,
     read := .event },
   { contentType := some "text/event-stream", ok := true, hasBody := true,
     read := .readError "socket hang up" },
   { contentType := some "text/event-stream", ok := true, hasBody := true,
     read := .readError "aborted" }]

/-- Three concurrent responses, all answered as plain JSON. -/
def c8AllJson : List ObservedResponse :=
  [{ contentType := some "application/json", ok := true, hasBody := true,
     read := .timedOut },
   { contentType := some "application/json", ok := true, hasBody := true,
     read := .timedOut },
   { contentType := none, ok := true, hasBody := true, read := .timedOut }]

open ServerSSEMultipleStreamsScenario in
/-- Witness for C8: concrete three-response observations hitting all four
verdict branches. -/
theorem claim_C8_witness :
    streamsFunctionalStatus c8AllFunctional = CheckStatus.SUCCESS ∧
    streamsFunctionalStatus c8Mixed = CheckStatus.WARNING ∧
    streamsFunctionalStatus c8AllErrored = CheckStatus.FAILURE ∧
    streamsFunctionalStatus c8AllJson = CheckStatus.INFO := by
  refine ⟨?_, ?_, ?_, ?_⟩
  · exact (claim_C8 c8AllFunctional (by decide)).1 (by decide)
  · exact (claim_C8 c8Mixed (by decide)).2.1 (by decide)
  · exact (claim_C8 c8AllErrored (by decide)).2.2.1 (by decide)
  · exact (claim_C8 c8AllJson (by decide)).2.2.2 (by decide)

/-- **C9.** Any exception thrown inside the probe body of a client-role
scenario `run` (`ServerSSEMultipleStreamsScenario.run` and
`ServerSSEPollingScenario.run`) is caught: exactly one FAILURE check
carrying the error text is appended to the accumulated checks, the
`finally` cleanup block executes on every exit path and calls
`client.close()` whenever the client was created, and the check list is
returned normally — the model of `run` is a total function, so no
exception escapes it. -/
theorem claim_C9 (cs : List ConformanceCheck) (msg : String) (cc : Bool) :
    (ServerSSEMultipleStreamsScenario.run (.threw cs msg) cc).checks =
      cs ++ [ServerSSEMultipleStreamsScenario.errorCheck msg] ∧
    (ServerSSEMultipleStreamsScenario.errorCheck msg).status = CheckStatus.FAILURE ∧
    (ServerSSEMultipleStreamsScenario.errorCheck msg).errorMessage =
      some ("Error: " ++ msg) ∧
    (∀ outcome, (ServerSSEMultipleStreamsScenario.run outcome cc).finallyRan = true) ∧
    (ServerSSEMultipleStreamsScenario.run (.threw cs msg) cc).clientCloseCalled = cc ∧
    (ServerSSEPollingScenario.run (.threw cs msg) cc).checks =
      cs ++ [ServerSSEPollingScenario.errorCheck msg] ∧
    (ServerSSEPollingScenario.errorCheck msg).status = CheckStatus.FAILURE ∧
    (ServerSSEPollingScenario.errorCheck msg).errorMessage =
      some ("Error: " ++ msg) ∧
    (∀ outcome, (ServerSSEPollingScenario.run outcome cc).finallyRan = true) ∧
    (ServerSSEPollingScenario.run (.threw cs msg) cc).clientCloseCalled = cc := by
  exact ⟨rfl, rfl, rfl, fun o => rfl, rfl, rfl, rfl, rfl, fun o => rfl, rfl⟩

open SSERetryScenario in
/-- A concrete operation sequence for the C3 witness: a `tools/call`, the
resuming GET stream (which also delivers the deferred result), then a
second GET stream. -/
def c3Ops : List SSERetryScenario.EmitOp :=
  [.toolsCall { method := "tools/call", id := JVal.num 7 },
   .getStream, .getStream]

open SSERetryScenario in
/-- Witness for C3: on a fresh instance running `c3Ops`, the emitted id
numbers are strictly increasing and the deferred-result event (numeric id
3) lies strictly above the starting counter and at most at the final
counter. -/
theorem claim_C3_witness :
    List.Chain' (· < ·)
      ((emitRun (SSERetryScenario.initState "session-0") c3Ops).2.map SseOut.idNum) ∧
    ((emitRun (SSERetryScenario.initState "session-0") c3Ops).2.map SseOut.idNum).Nodup ∧
    (SSERetryScenario.initState "session-0").eventIdCounter <
      (SseOut.mk 3 none (.toolResult (JVal.num 7))).idNum ∧
    (SseOut.mk 3 none (.toolResult (JVal.num 7))).idNum ≤
      (emitRun (SSERetryScenario.initState "session-0") c3Ops).1.eventIdCounter := by
  obtain ⟨h1, h2, h3⟩ := claim_C3 (SSERetryScenario.initState "session-0") c3Ops
  have hm := h3 ⟨3, none, .toolResult (JVal.num 7)⟩ (by decide)
  exact ⟨h1, h2, hm.1, hm.2⟩
